import Mathlib

/-!
Verification of the inference-serving core of the Credit-Prediction backend
(`backend/app/pipeline_loader.py`, `backend/app/inference.py`,
`backend/app/utils.py`) against its natural-language specification.

The Python code is shallowly embedded: pure data flow becomes Lean
functions, external capabilities (the filesystem, joblib deserialization,
the opaque scikit-learn pipeline objects, pandas CSV parse/serialize) become
explicit function parameters, and Python exceptions become `Except` values.
Numbers are rationals; a separate `PyFloat` type records the
finite/nan/infinite distinction where a claim mentions finiteness.
-/

/-- A single-quote character as a string, used to spell Python error-message
text that contains one. -/
def sQuote : String := String.singleton (Char.ofNat 39)

/-- Python `needle in hay` on strings: substring containment. -/
def strContains (hay needle : String) : Bool :=
  hay.toList.tails.any (fun t => needle.toList.isPrefixOf t)

/-! ## pipeline_loader.py -/

/-- `fastapi.HTTPException(status_code=..., detail=...)` as raised by
`load_pipelines`. -/
structure HTTPException where
  status_code : Nat
  detail : String
deriving DecidableEq, Repr

/-- The dict `{"reg": regression_pipeline, "clf": classification_pipeline}`
returned by `load_pipelines`; the two fixed keys become two fields. -/
structure PipelineDict (P : Type) where
  reg : P
  clf : P
deriving DecidableEq, Repr

/-- The first version-skew marker substring checked by `load_pipelines`
(source text: Can + single quote + t get attribute). -/
def cantGetAttribute : String := "Can" ++ sQuote ++ "t get attribute"

/-- Detail of the 503 raised when the regression artifact file is absent. -/
def regMissingDetail : String :=
  "Artifacts not found. Place best_regression_pipeline.joblib in backend/artifacts/"

/-- Detail of the 503 raised when the classification artifact file is absent. -/
def clfMissingDetail : String :=
  "Artifacts not found. Place best_classification_pipeline.joblib in backend/artifacts/"

/-- The `except Exception` handler of `load_pipelines`: classifies a
deserialization error message by the three fixed marker substrings. -/
def classify_load_error (e : String) : HTTPException :=
  if strContains e cantGetAttribute || strContains e "BitGenerator" ||
      strContains e "numpy._core" then
    ⟨503, "Pipeline compatibility issue: " ++ e ++
      ". Please ensure your pipeline files were created with compatible versions of scikit-learn and numpy. You may need to recreate the pipelines with the current environment versions."⟩
  else
    ⟨503, "Failed to load pipelines: " ++ e⟩

/-- `load_pipelines` from `pipeline_loader.py`.  `pathExists` embeds
`os.path.exists`; `joblibLoad` embeds `joblib.load`, returning the
deserialized pipeline or the text of the raised exception. -/
def load_pipelines {P : Type} (pathExists : String → Bool)
    (joblibLoad : String → Except String P) :
    Except HTTPException (PipelineDict P) :=
  let artifacts_dir := "artifacts"
  let regression_path := artifacts_dir ++ "/" ++ "best_regression_pipeline.joblib"
  let classification_path := artifacts_dir ++ "/" ++ "best_classification_pipeline.joblib"
  if ¬ pathExists regression_path then
    .error ⟨503, regMissingDetail⟩
  else if ¬ pathExists classification_path then
    .error ⟨503, clfMissingDetail⟩
  else
    match joblibLoad regression_path with
    | .error e => .error (classify_load_error e)
    | .ok r =>
      match joblibLoad classification_path with
      | .error e => .error (classify_load_error e)
      | .ok c => .ok ⟨r, c⟩

/-! ## pipeline_loader.get_schema -/

/-- The dict returned by `get_schema`, with its two fixed keys. -/
structure SchemaDict where
  numeric_features : List String
  categorical_features : List String
deriving DecidableEq, Repr

/-- The static fallback schema returned by `get_schema` when introspection
raises: 13 numeric and 5 categorical feature names. -/
def fallback_schema : SchemaDict :=
  ⟨["Customer_Age", "Dependent_count", "Months_on_book",
    "Total_Relationship_Count", "Months_Inactive_12_mon",
    "Contacts_Count_12_mon", "Total_Revolving_Bal",
    "Avg_Open_To_Buy", "Total_Amt_Chng_Q4_Q1",
    "Total_Trans_Amt", "Total_Trans_Ct",
    "Total_Ct_Chng_Q4_Q1", "Avg_Utilization_Ratio"],
   ["Gender", "Education_Level", "Marital_Status",
    "Income_Category", "Card_Category"]⟩

/-- The introspection view `get_schema` takes of a pipeline:
`named_steps[...].transformers` as a list of (name, transformer, columns)
triples (the transformer object itself is irrelevant to the code, so it is
`Unit` here).  `none` models any exception raised while reaching or
iterating that attribute. -/
structure SchemaPipeline where
  transformers : Option (List (String × Unit × List String))

/-- The `for name, transformer, features in preprocessor.transformers` loop
of `get_schema`: reassigns the numeric list on each entry named num and the
categorical list on each entry named cat. -/
def schemaLoop (ts : List (String × Unit × List String)) :
    List String × List String :=
  ts.foldl
    (fun acc t =>
      if t.1 = "num" then (t.2.2, acc.2)
      else if t.1 = "cat" then (acc.1, t.2.2)
      else acc)
    (([] : List String), ([] : List String))

/-- `get_schema` from `pipeline_loader.py`. -/
def get_schema (p : SchemaPipeline) : SchemaDict :=
  match p.transformers with
  | none => fallback_schema
  | some ts =>
    let r := schemaLoop ts
    ⟨r.1, r.2⟩

/-! ## Theorems: C1, C2, C8 -/

/-- The last value assigned to one of `schemaLoop`'s accumulator slots: the
trailing entry of the filtered list, or the default when none matches. -/
def lastFeat (key : String) (ts : List (String × Unit × List String))
    (dflt : List String) : List String :=
  (ts.filter (fun t => t.1 = key)).foldl (fun _ t => t.2.2) dflt

theorem schemaLoop_foldl (ts : List (String × Unit × List String))
    (a b : List String) :
    ts.foldl
      (fun acc t =>
        if t.1 = "num" then (t.2.2, acc.2)
        else if t.1 = "cat" then (acc.1, t.2.2)
        else acc)
      (a, b) = (lastFeat "num" ts a, lastFeat "cat" ts b) := by
  induction ts generalizing a b with
  | nil => simp [lastFeat]
  | cons t ts ih =>
    by_cases hn : t.1 = "num"
    · have hc : ¬ t.1 = "cat" := by simp [hn]
      simp [List.foldl_cons, hn, hc, ih, lastFeat, List.filter_cons]
    · by_cases hc : t.1 = "cat"
      · simp [List.foldl_cons, hn, hc, ih, lastFeat, List.filter_cons]
      · simp [List.foldl_cons, hn, hc, ih, lastFeat, List.filter_cons]

theorem lastFeat_single (key : String) (ts : List (String × Unit × List String))
    (N : List String)
    (h : (ts.filter (fun t => t.1 = key)).map (fun t => t.2.2) = [N]) :
    ∀ d, lastFeat key ts d = N := by
  intro d
  unfold lastFeat
  rcases hf : ts.filter (fun t => t.1 = key) with _ | ⟨t, rest⟩
  · rw [hf] at h; simp at h
  · rw [hf] at h
    rcases rest with _ | ⟨u, more⟩
    · simp only [List.map_cons, List.map_nil] at h
      have ht : t.2.2 = N := by injection h
      simp [hf, ht]
    · simp at h

/-- Claim C2: `get_schema` never raises (it is a total function); when the
preprocessing stage exposes its transformer entries and exactly one entry is
named num with columns `N` and exactly one is named cat with columns `C`
(any other entries ignored), the result is exactly the schema `(N, C)`; and
when introspection raises, the result is the static fallback schema with its
13 numeric and 5 categorical names. -/
theorem get_schema_spec (p : SchemaPipeline) :
    (∀ ts N C, p.transformers = some ts →
      (ts.filter (fun t => t.1 = "num")).map (fun t => t.2.2) = [N] →
      (ts.filter (fun t => t.1 = "cat")).map (fun t => t.2.2) = [C] →
      get_schema p = ⟨N, C⟩) ∧
    (p.transformers = none →
      get_schema p = fallback_schema ∧
      (get_schema p).numeric_features.length = 13 ∧
      (get_schema p).categorical_features.length = 5) := by
  constructor
  · intro ts N C hts hN hC
    simp [get_schema, hts, schemaLoop, schemaLoop_foldl,
      lastFeat_single "num" ts N hN, lastFeat_single "cat" ts C hC]
  · intro hnone
    have hg : get_schema p = fallback_schema := by simp [get_schema, hnone]
    refine ⟨hg, ?_, ?_⟩ <;> rw [hg] <;> rfl

/-- Witness for C2: a concrete transformer list with one num, one cat and one
ignored entry yields exactly those feature lists, and the exception case
yields the fallback. -/
theorem get_schema_spec_witness :
    get_schema ⟨some [("num", (), ["a", "b"]), ("other", (), ["x"]),
      ("cat", (), ["c"])]⟩ = ⟨["a", "b"], ["c"]⟩ ∧
    get_schema ⟨none⟩ = fallback_schema := by
  refine ⟨(get_schema_spec _).1 _ ["a", "b"] ["c"] rfl (by decide) (by decide), ?_⟩
  exact ((get_schema_spec ⟨none⟩).2 rfl).1

/-- Claim C1: `load_pipelines` classifies its failures.  If the regression
artifact file is absent it fails with the 503 naming that file, whatever the
deserializer would do and whether or not the classification file exists
(regression is checked first); if only the classification file is absent it
fails with the 503 naming that file, again independently of the
deserializer; if both files exist and either deserialization fails with
message `e`, the result is the compatibility 503 wrapping `e` exactly when
`e` contains one of the three fixed marker substrings, and the generic
load-failure 503 wrapping `e` otherwise. -/
theorem load_pipelines_error_classification {P : Type}
    (fs : String → Bool) (j : String → Except String P) :
    (fs "artifacts/best_regression_pipeline.joblib" = false →
      load_pipelines fs j = .error ⟨503, regMissingDetail⟩ ∧
      ∀ j2 : String → Except String P, load_pipelines fs j = load_pipelines fs j2) ∧
    (fs "artifacts/best_regression_pipeline.joblib" = true →
      fs "artifacts/best_classification_pipeline.joblib" = false →
      load_pipelines fs j = .error ⟨503, clfMissingDetail⟩ ∧
      ∀ j2 : String → Except String P, load_pipelines fs j = load_pipelines fs j2) ∧
    (∀ e, fs "artifacts/best_regression_pipeline.joblib" = true →
      fs "artifacts/best_classification_pipeline.joblib" = true →
      (j "artifacts/best_regression_pipeline.joblib" = .error e ∨
        ((∃ r, j "artifacts/best_regression_pipeline.joblib" = .ok r) ∧
          j "artifacts/best_classification_pipeline.joblib" = .error e)) →
      ((strContains e cantGetAttribute || strContains e "BitGenerator" ||
          strContains e "numpy._core") = true →
        load_pipelines fs j = .error ⟨503, "Pipeline compatibility issue: " ++ e ++
          ". Please ensure your pipeline files were created with compatible versions of scikit-learn and numpy. You may need to recreate the pipelines with the current environment versions."⟩) ∧
      ((strContains e cantGetAttribute || strContains e "BitGenerator" ||
          strContains e "numpy._core") = false →
        load_pipelines fs j = .error ⟨503, "Failed to load pipelines: " ++ e⟩)) := by
  refine ⟨?_, ?_, ?_⟩
  · intro hreg
    constructor
    · simp [load_pipelines, hreg]
    · intro j2; simp [load_pipelines, hreg]
  · intro hreg hclf
    constructor
    · simp [load_pipelines, hreg, hclf]
    · intro j2; simp [load_pipelines, hreg, hclf]
  · intro e hreg hclf hcase
    rcases hcase with herr | ⟨⟨r, hok⟩, herr⟩
    · constructor
      · intro hm
        simp [load_pipelines, hreg, hclf, herr, classify_load_error, hm]
      · intro hm
        simp [load_pipelines, hreg, hclf, herr, classify_load_error, hm]
    · constructor
      · intro hm
        simp [load_pipelines, hreg, hclf, hok, herr, classify_load_error, hm]
      · intro hm
        simp [load_pipelines, hreg, hclf, hok, herr, classify_load_error, hm]

/-- Witness for C1: with no files present the regression-missing 503 is
raised; with both files present and a regression deserialization error
containing the BitGenerator marker, the compatibility 503 is raised. -/
theorem load_pipelines_error_classification_witness :
    load_pipelines (fun _ => false) (fun _ => (.error "x" : Except String Unit)) =
      .error ⟨503, regMissingDetail⟩ ∧
    load_pipelines (fun _ => true)
        (fun _ => (.error "pickle: BitGenerator mismatch" : Except String Unit)) =
      .error ⟨503, "Pipeline compatibility issue: pickle: BitGenerator mismatch. Please ensure your pipeline files were created with compatible versions of scikit-learn and numpy. You may need to recreate the pipelines with the current environment versions."⟩ := by
  constructor
  · exact ((load_pipelines_error_classification (fun _ => false)
      (fun _ => (.error "x" : Except String Unit))).1 rfl).1
  · have h := ((load_pipelines_error_classification (fun _ => true)
      (fun _ => (.error "pickle: BitGenerator mismatch" : Except String Unit))).2.2
      "pickle: BitGenerator mismatch" rfl rfl (Or.inl rfl)).1 (by decide)
    simpa using h

/-- Claim C8: `load_pipelines` is all-or-nothing: every successfully returned
bundle contains both pipelines, each the value of a successful
deserialization of its artifact file, and both files existed; no caller ever
sees a bundle with one pipeline and not the other. -/
theorem load_pipelines_all_or_nothing {P : Type}
    (fs : String → Bool) (j : String → Except String P) (b : PipelineDict P)
    (h : load_pipelines fs j = .ok b) :
    fs "artifacts/best_regression_pipeline.joblib" = true ∧
    fs "artifacts/best_classification_pipeline.joblib" = true ∧
    j "artifacts/best_regression_pipeline.joblib" = .ok b.reg ∧
    j "artifacts/best_classification_pipeline.joblib" = .ok b.clf := by
  by_cases hreg : fs "artifacts/best_regression_pipeline.joblib" = true
  · by_cases hclf : fs "artifacts/best_classification_pipeline.joblib" = true
    · rcases hr : j "artifacts/best_regression_pipeline.joblib" with e | r
      · simp [load_pipelines, hreg, hclf, hr] at h
      · rcases hc : j "artifacts/best_classification_pipeline.joblib" with e | c
        · simp [load_pipelines, hreg, hclf, hr, hc] at h
        · simp [load_pipelines, hreg, hclf, hr, hc] at h
          subst h
          exact ⟨hreg, hclf, rfl, rfl⟩
    · simp [load_pipelines, hreg, hclf] at h
  · simp [load_pipelines, hreg] at h

/-- Witness for C8: a run in which both files exist and both loads succeed
returns the bundle of exactly those two loaded values. -/
theorem load_pipelines_all_or_nothing_witness :
    (fun _ => true : String → Bool) "artifacts/best_regression_pipeline.joblib" = true ∧
    (fun p => (.ok p : Except String String)) "artifacts/best_regression_pipeline.joblib" =
      .ok "artifacts/best_regression_pipeline.joblib" := by
  have h := load_pipelines_all_or_nothing (fun _ => true)
    (fun p => (.ok p : Except String String))
    ⟨"artifacts/best_regression_pipeline.joblib",
     "artifacts/best_classification_pipeline.joblib"⟩ rfl
  exact ⟨h.1, h.2.2.1⟩

/-! ## inference.py -/

/-- A Python float value: finite (as a rational) or one of the non-finite
values.  Used where a claim talks about finiteness. -/
inductive PyFloat
  | fin (q : ℚ)
  | nan
  | inf
  | ninf
deriving DecidableEq, Repr

/-- `math.isfinite` on a `PyFloat`. -/
def PyFloat.isFinite : PyFloat → Bool
  | .fin _ => true
  | _ => false

/-- A scalar cell of a payload or of a predict output: a number or a
string. -/
inductive Cell
  | num (x : PyFloat)
  | str (s : String)
deriving DecidableEq, Repr

/-- A printable form of a `PyFloat` for `str(prediction)`.  Python float
formatting is abstracted to the rational's own representation; the
classification claims only pass labels through, never inspect this text. -/
def pyFloatRepr : PyFloat → String
  | .fin q => toString q
  | .nan => "nan"
  | .inf => "inf"
  | .ninf => "-inf"

/-- `str(prediction)` on a cell. -/
def Cell.toPyStr : Cell → String
  | .str s => s
  | .num x => pyFloatRepr x

/-- `float(prediction)` on a cell.  A regressor's predict returns numeric
arrays, so the string case models the conversion error Python raises on
non-numeric text (numeric-text parsing is not needed by any claim). -/
def Cell.toFloat : Cell → Except String PyFloat
  | .num x => .ok x
  | .str s => .error ("could not convert string to float: " ++ sQuote ++ s ++ sQuote)

/-- The numpy message for indexing `[0]` into an empty result array. -/
def indexError0 : String := "index 0 is out of bounds for axis 0 with size 0"

/-- A row-oriented table, as built by `pd.DataFrame([payload])`: a list of
rows, each row the ordered column/value pairs of one payload. -/
abbrev RowTable := List (List (String × Cell))

/-- The capability view `inference.py` takes of a loaded pipeline object:
`predict` (one output per row, or the text of a raised exception),
optionally `predict_proba` (per-row probability vectors; `none` embeds a
failing `hasattr(pipeline, ...)` check), and the fitted class-label list
`classes_` in the pipeline's own order. -/
structure SkPipeline where
  predict : RowTable → Except String (List Cell)
  predict_proba : Option (RowTable → Except String (List (List ℚ)))
  classes_ : List String

/-- `predict_regression` from `inference.py`: single-row frame, predict,
take element 0, coerce to float; any exception becomes the wrapped
ValueError. -/
def predict_regression (pipeline : SkPipeline)
    (payload : List (String × Cell)) : Except String PyFloat :=
  let body : Except String PyFloat :=
    match pipeline.predict [payload] with
    | .error e => .error e
    | .ok [] => .error indexError0
    | .ok (v :: _) => v.toFloat
  match body with
  | .ok v => .ok v
  | .error e => .error ("Regression prediction failed: " ++ e)

/-- The constant fallback distribution of `predict_classification`,
substituted when the pipeline has no `predict_proba` attribute. -/
def fallback_proba : List (String × ℚ) :=
  [("Low", 33/100), ("Medium", 33/100), ("High", 34/100)]

/-- `predict_classification` from `inference.py`: single-row frame, predict,
take element 0 as the label; when `predict_proba` exists, zip its row-0
vector against `classes_` (Python `zip` truncates at the shorter list, and
the dict keeps insertion order — `classes_` is duplicate-free by the
scikit-learn contract, so a pair list is the faithful image); otherwise the
constant fallback distribution.  Any exception becomes the wrapped
ValueError. -/
def predict_classification (pipeline : SkPipeline)
    (payload : List (String × Cell)) :
    Except String (String × List (String × ℚ)) :=
  let body : Except String (String × List (String × ℚ)) :=
    match pipeline.predict [payload] with
    | .error e => .error e
    | .ok [] => .error indexError0
    | .ok (pred :: _) =>
      match pipeline.predict_proba with
      | some f =>
        match f [payload] with
        | .error e => .error e
        | .ok [] => .error indexError0
        | .ok (pv :: _) => .ok (pred.toPyStr, pipeline.classes_.zip pv)
      | none => .ok (pred.toPyStr, fallback_proba)
  match body with
  | .ok r => .ok r
  | .error e => .error ("Classification prediction failed: " ++ e)

/-- Observable events of `predict_with_timing`, in execution order: a
`time.time()` reading, or the dispatch into one of the two prediction
operations. -/
inductive TraceEv
  | timerRead
  | modelCall (task : String)
deriving DecidableEq, Repr

/-- The tagged result of `predict_with_timing`. -/
inductive PredResult
  | regRes (v : PyFloat)
  | clfRes (r : String × List (String × ℚ))
deriving DecidableEq, Repr

/-- `predict_with_timing` from `inference.py`.  `clock i` is the value of
the i-th `time.time()` call of the run.  The first component is the event
trace: the source records `start_time = time.time()` before the task
dispatch, so every run, the unknown-task run included, begins with a
`timerRead`; a second reading happens only after a successful prediction
(an exception propagates before it). -/
def predict_with_timing (clock : Nat → ℚ) (pipeline : SkPipeline)
    (payload : List (String × Cell)) (task : String) :
    List TraceEv × Except String (PredResult × ℚ) :=
  let start_time := clock 0
  if task = "regression" then
    match predict_regression pipeline payload with
    | .error e => ([.timerRead, .modelCall "regression"], .error e)
    | .ok v =>
      ([.timerRead, .modelCall "regression", .timerRead],
       .ok (.regRes v, (clock 1 - start_time) * 1000))
  else if task = "classification" then
    match predict_classification pipeline payload with
    | .error e => ([.timerRead, .modelCall "classification"], .error e)
    | .ok r =>
      ([.timerRead, .modelCall "classification", .timerRead],
       .ok (.clfRes r, (clock 1 - start_time) * 1000))
  else
    ([.timerRead], .error ("Unknown task: " ++ task))

/-! ## Theorems: C5, C6, C7, C10 -/

/-- A concrete one-column payload used by the inference witnesses. -/
def payload0 : List (String × Cell) := [("Customer_Age", Cell.num (.fin 45))]

/-- A concrete pipeline whose predict succeeds with the finite number 12345. -/
def pReg0 : SkPipeline := ⟨fun _ => .ok [Cell.num (.fin 12345)], none, []⟩

/-- A concrete pipeline whose predict raises. -/
def pRegErr0 : SkPipeline := ⟨fun _ => .error "columns are missing", none, []⟩

/-- A concrete classifier without a `predict_proba` attribute. -/
def pClfNoProba : SkPipeline :=
  ⟨fun _ => .ok [Cell.str "Medium"], none, ["High", "Low", "Medium"]⟩

/-- A concrete classifier with a working `predict_proba`; its class order is
deliberately not the fallback's order. -/
def pClfProba : SkPipeline :=
  ⟨fun _ => .ok [Cell.str "Low"],
   some (fun _ => .ok [[1/2, 3/10, 1/5]]),
   ["High", "Low", "Medium"]⟩

/-- A concrete classifier whose `predict_proba` attribute exists but raises
when called. -/
def pClfProbaErr : SkPipeline :=
  ⟨fun _ => .ok [Cell.str "Low"],
   some (fun _ => .error "proba blew up"),
   ["High", "Low", "Medium"]⟩

/-- Claim C7: `predict_regression` wraps the payload into a single-row table
and returns the first output of the pipeline's predict coerced to float; when
that first output is a finite number the call returns it, finite, without
raising; and on any exception it fails with the wrapped
`Regression prediction failed:` message, never a partial result. -/
theorem predict_regression_spec (p : SkPipeline)
    (payload : List (String × Cell)) :
    (∀ v rest, p.predict [payload] = .ok (Cell.num v :: rest) →
      predict_regression p payload = .ok v) ∧
    (∀ q rest, p.predict [payload] = .ok (Cell.num (.fin q) :: rest) →
      ∃ v, predict_regression p payload = .ok v ∧ v.isFinite = true) ∧
    (∀ e, p.predict [payload] = .error e →
      predict_regression p payload =
        .error ("Regression prediction failed: " ++ e)) := by
  refine ⟨?_, ?_, ?_⟩
  · intro v rest h
    simp [predict_regression, h, Cell.toFloat]
  · intro q rest h
    exact ⟨.fin q, by simp [predict_regression, h, Cell.toFloat], rfl⟩
  · intro e h
    simp [predict_regression, h]

/-- Witness for C7: the successful pipeline yields the finite value 12345 and
the raising pipeline yields the wrapped error. -/
theorem predict_regression_spec_witness :
    predict_regression pReg0 payload0 = .ok (PyFloat.fin 12345) ∧
    (PyFloat.fin 12345).isFinite = true ∧
    predict_regression pRegErr0 payload0 =
      .error "Regression prediction failed: columns are missing" := by
  refine ⟨(predict_regression_spec pReg0 payload0).1 (.fin 12345) [] rfl, rfl, ?_⟩
  exact (predict_regression_spec pRegErr0 payload0).2.2 "columns are missing" rfl

/-- Claim C5: when the pipeline lacks `predict_proba` and predict succeeds,
`predict_classification` returns the constant fallback distribution
Low 0.33, Medium 0.33, High 0.34, whose values sum to exactly 1; when the
capability is present and returns a row vector at least as long as the class
list, the returned probabilities are keyed by the pipeline's own class
labels in the pipeline's own order. -/
theorem predict_classification_fallback_spec (p : SkPipeline)
    (payload : List (String × Cell)) :
    (∀ pred rest, p.predict_proba = none →
      p.predict [payload] = .ok (pred :: rest) →
      predict_classification p payload = .ok (pred.toPyStr, fallback_proba) ∧
      (fallback_proba.map Prod.snd).sum = 1) ∧
    (∀ f pred rest pv pvrest, p.predict_proba = some f →
      p.predict [payload] = .ok (pred :: rest) →
      f [payload] = .ok (pv :: pvrest) →
      p.classes_.length ≤ pv.length →
      predict_classification p payload =
        .ok (pred.toPyStr, p.classes_.zip pv) ∧
      (p.classes_.zip pv).map Prod.fst = p.classes_) := by
  constructor
  · intro pred rest hnone hp
    constructor
    · simp [predict_classification, hnone, hp]
    · norm_num [fallback_proba]
  · intro f pred rest pv pvrest hf hp hpv hlen
    constructor
    · simp [predict_classification, hf, hp, hpv]
    · exact List.map_fst_zip p.classes_ pv hlen

/-- Witness for C5: the proba-less classifier returns the fallback
distribution (summing to 1), and the proba-capable classifier returns
probabilities zipped against its own class order High, Low, Medium. -/
theorem predict_classification_fallback_spec_witness :
    predict_classification pClfNoProba payload0 = .ok ("Medium", fallback_proba) ∧
    (fallback_proba.map Prod.snd).sum = 1 ∧
    predict_classification pClfProba payload0 =
      .ok ("Low", [("High", 1/2), ("Low", 3/10), ("Medium", 1/5)]) := by
  refine ⟨?_, ?_, ?_⟩
  · exact ((predict_classification_fallback_spec pClfNoProba payload0).1
      (Cell.str "Medium") [] rfl rfl).1
  · exact ((predict_classification_fallback_spec pClfNoProba payload0).1
      (Cell.str "Medium") [] rfl rfl).2
  · exact ((predict_classification_fallback_spec pClfProba payload0).2
      (fun _ => .ok [[1/2, 3/10, 1/5]]) (Cell.str "Low") [] [1/2, 3/10, 1/5] []
      rfl rfl rfl (by decide)).1

/-- Claim C10: the fallback distribution is substituted only on a missing
`predict_proba` attribute; when the attribute exists but the call raises,
`predict_classification` fails with the wrapped
`Classification prediction failed:` message instead of returning the label
with the fallback distribution. -/
theorem predict_classification_proba_error_spec (p : SkPipeline)
    (payload : List (String × Cell))
    (f : RowTable → Except String (List (List ℚ))) (e : String)
    (pred : Cell) (rest : List Cell)
    (hf : p.predict_proba = some f)
    (hp : p.predict [payload] = .ok (pred :: rest))
    (he : f [payload] = .error e) :
    predict_classification p payload =
      .error ("Classification prediction failed: " ++ e) := by
  simp [predict_classification, hf, hp, he]

/-- Witness for C10: a classifier whose `predict_proba` raises produces the
wrapped error, not the fallback distribution. -/
theorem predict_classification_proba_error_spec_witness :
    predict_classification pClfProbaErr payload0 =
      .error "Classification prediction failed: proba blew up" := by
  exact predict_classification_proba_error_spec pClfProbaErr payload0
    (fun _ => .error "proba blew up") "proba blew up" (Cell.str "Low") []
    rfl rfl rfl

/-- Counterexample to claim C6 as stated: at a concrete clock, pipeline and
payload, `predict_with_timing` on the unrecognized task "bogus" does fail
with the UnknownTask error and performs no model call, but its event trace
already contains the start `time.time()` reading — the source records the
start timestamp before checking the task, so the failure happens after
timing has started, not before it. -/
theorem predict_with_timing_unknown_counterexample :
    (predict_with_timing (fun _ => 0) pReg0 payload0 "bogus").1 =
      [TraceEv.timerRead] ∧
    (predict_with_timing (fun _ => 0) pReg0 payload0 "bogus").2 =
      .error "Unknown task: bogus" := by
  constructor <;> rfl

/-- Claim C6 (amended): for every task outside regression and
classification, `predict_with_timing` records the start timestamp and then
fails with the UnknownTask error before performing any model call (its trace
is exactly the one timer reading); for recognized tasks exactly one
prediction call happens between the start reading and, on success, the stop
reading, and the measured elapsed time is the difference of those two clock
readings times 1000. -/
theorem predict_with_timing_spec (clock : Nat → ℚ) (p : SkPipeline)
    (payload : List (String × Cell)) (task : String) :
    (task ≠ "regression" → task ≠ "classification" →
      predict_with_timing clock p payload task =
        ([TraceEv.timerRead], .error ("Unknown task: " ++ task))) ∧
    (task = "regression" →
      (∀ e, predict_regression p payload = .error e →
        predict_with_timing clock p payload task =
          ([TraceEv.timerRead, TraceEv.modelCall "regression"], .error e)) ∧
      (∀ v, predict_regression p payload = .ok v →
        predict_with_timing clock p payload task =
          ([TraceEv.timerRead, TraceEv.modelCall "regression", TraceEv.timerRead],
           .ok (.regRes v, (clock 1 - clock 0) * 1000)))) ∧
    (task = "classification" →
      (∀ e, predict_classification p payload = .error e →
        predict_with_timing clock p payload task =
          ([TraceEv.timerRead, TraceEv.modelCall "classification"], .error e)) ∧
      (∀ r, predict_classification p payload = .ok r →
        predict_with_timing clock p payload task =
          ([TraceEv.timerRead, TraceEv.modelCall "classification", TraceEv.timerRead],
           .ok (.clfRes r, (clock 1 - clock 0) * 1000)))) := by
  refine ⟨?_, ?_, ?_⟩
  · intro h1 h2
    simp [predict_with_timing, h1, h2]
  · rintro rfl
    constructor
    · intro e he
      simp [predict_with_timing, he]
    · intro v hv
      simp [predict_with_timing, hv]
  · rintro rfl
    constructor
    · intro e he
      simp [predict_with_timing, he]
    · intro r hr
      simp [predict_with_timing, hr]

/-- Witness for C6 (amended): the unknown task "bogus" yields the single
start reading and the UnknownTask error, and a successful regression run
yields the three-event trace with the clock-difference elapsed value. -/
theorem predict_with_timing_spec_witness :
    predict_with_timing (fun _ => (0 : ℚ)) pReg0 payload0 "bogus" =
      ([TraceEv.timerRead], .error "Unknown task: bogus") ∧
    predict_with_timing (fun _ => (0 : ℚ)) pReg0 payload0 "regression" =
      ([TraceEv.timerRead, TraceEv.modelCall "regression", TraceEv.timerRead],
       .ok (.regRes (PyFloat.fin 12345), ((0 : ℚ) - 0) * 1000)) := by
  constructor
  · exact (predict_with_timing_spec (fun _ => (0 : ℚ)) pReg0 payload0 "bogus").1
      (by decide) (by decide)
  · exact ((predict_with_timing_spec (fun _ => (0 : ℚ)) pReg0 payload0
      "regression").2.1 rfl).2 (PyFloat.fin 12345) rfl

/-! ## utils.py: score_csv -/

/-- A pandas DataFrame as parsed from CSV text: a row count and an ordered
list of named columns, each holding one cell per row. -/
structure DF where
  nrows : Nat
  cols : List (String × List Cell)
deriving DecidableEq, Repr

/-- `df[name] = values` with a per-row vector: pandas overwrites the column
in place when the name already exists and appends a new last column
otherwise, and raises when the vector length differs from the frame's row
count. -/
def DF.setColVals (df : DF) (name : String) (vals : List Cell) :
    Except String DF :=
  if vals.length ≠ df.nrows then
    .error ("Length of values (" ++ toString vals.length ++
      ") does not match length of index (" ++ toString df.nrows ++ ")")
  else if df.cols.any (fun c => c.1 = name) then
    .ok ⟨df.nrows, df.cols.map (fun c => if c.1 = name then (name, vals) else c)⟩
  else
    .ok ⟨df.nrows, df.cols ++ [(name, vals)]⟩

/-- `df[name] = scalar`: the scalar is broadcast to every row; same
overwrite-or-append placement, and never raises. -/
def DF.setColScalar (df : DF) (name : String) (v : Cell) : DF :=
  if df.cols.any (fun c => c.1 = name) then
    ⟨df.nrows,
     df.cols.map (fun c => if c.1 = name then (name, List.replicate df.nrows v) else c)⟩
  else
    ⟨df.nrows, df.cols ++ [(name, List.replicate df.nrows v)]⟩

/-- The capability view `score_csv` takes of a pipeline: whole-table
`predict`, optionally `predict_proba` (per-row probability vectors,
rectangular with one entry per class by the scikit-learn contract), and the
class-label list. -/
structure BatchPipeline where
  predict : DF → Except String (List Cell)
  predict_proba : Option (DF → Except String (List (List ℚ)))
  classes_ : List String

/-- The numpy column slice `proba_values[:, i]`, as a cell vector.  The
source array is rectangular with one column per class, so under that
contract the positional default is never reached. -/
def probaCol (m : List (List ℚ)) (i : Nat) : List Cell :=
  m.map (fun row => Cell.num (.fin (row.getD i 0)))

/-- The `for i, cls in enumerate(classes)` loop of the classification
branch, appending one `proba_` column per class, starting at column index
`i`. -/
def setProbaColsFrom (df : DF) (classes : List String) (m : List (List ℚ))
    (i : Nat) : Except String DF :=
  match classes with
  | [] => .ok df
  | cls :: rest =>
    match df.setColVals ("proba_" ++ cls) (probaCol m i) with
    | .error e => .error e
    | .ok d2 => setProbaColsFrom d2 rest m (i + 1)

/-- The body of `score_csv` between the CSV parse and the CSV
re-serialization: mode dispatch, whole-table prediction, and the column
appends on the parsed frame. -/
def score_table (pipeline : BatchPipeline) (mode : String) (df : DF) :
    Except String DF :=
  if mode = "regression" then
    match pipeline.predict df with
    | .error e => .error e
    | .ok preds => df.setColVals "pred_credit_limit" preds
  else if mode = "classification" then
    match pipeline.predict df with
    | .error e => .error e
    | .ok preds =>
      match df.setColVals "pred_tier" preds with
      | .error e => .error e
      | .ok df1 =>
        match pipeline.predict_proba with
        | some f =>
          match f df with
          | .error e => .error e
          | .ok m => setProbaColsFrom df1 pipeline.classes_ m 0
        | none =>
          .ok (((df1.setColScalar "proba_Low" (Cell.num (.fin (33/100)))).setColScalar
            "proba_Medium" (Cell.num (.fin (33/100)))).setColScalar
            "proba_High" (Cell.num (.fin (34/100))))
  else
    .error ("Unknown mode: " ++ mode)

/-- `score_csv` from `utils.py`.  `read_csv` and `to_csv` are the external
pandas parse and serialize capabilities; any exception of the body is
wrapped into the `CSV scoring failed:` ValueError, and no output text is
produced on failure. -/
def score_csv (read_csv : String → Except String DF) (to_csv : DF → String)
    (file_content : String) (mode : String) (pipeline : BatchPipeline) :
    Except String String :=
  let body : Except String String :=
    match read_csv file_content with
    | .error e => .error e
    | .ok df =>
      match score_table pipeline mode df with
      | .error e => .error e
      | .ok out => .ok (to_csv out)
  match body with
  | .ok s => .ok s
  | .error e => .error ("CSV scoring failed: " ++ e)

/-! ## utils.py: global_importance -/

/-- Stable insertion of an entry into a list already sorted by descending
importance: the new entry goes before the first entry whose importance does
not exceed it. -/
def insertByDesc (x : String × ℚ) : List (String × ℚ) → List (String × ℚ)
  | [] => [x]
  | y :: ys => if y.2 ≤ x.2 then x :: y :: ys else y :: insertByDesc x ys

/-- Stable sort by descending importance.  Python's `list.sort(key=...,
reverse=True)` is a stable sort, and a stable sort under a total preorder
has a unique result, so this structural insertion sort is extensionally the
source's sort. -/
def sortDescImportance (l : List (String × ℚ)) : List (String × ℚ) :=
  l.foldr insertByDesc []

/-- Sort descending by importance and truncate to the top 20, as both
dynamic tiers of `global_importance` do. -/
def sortDescTake20 (l : List (String × ℚ)) : List (String × ℚ) :=
  (sortDescImportance l).take 20

/-- The introspection/capability view `global_importance` takes of a
pipeline.  `shap_available` is whether `import shap` succeeds; `has_tree` is
whether the estimator step exposes a tree structure (also false when neither
a classifier nor a regressor step exists, since `hasattr(None, ...)` is
false); `shap_mean_abs` is the external explainer computation over the
synthetic sample (mean absolute attribution per feature, or the text of any
raised exception); `num_features` is the access
`named_steps[preprocess].transformers_[0][2]` (or the text of the exception
it raises); `feature_importances` is the native importance vector when the
estimator has one. -/
structure ImpPipeline where
  shap_available : Bool
  has_tree : Bool
  shap_mean_abs : Except String (List ℚ)
  num_features : Except String (List String)
  feature_importances : Option (List ℚ)

/-- The 10-entry static constant list of the final (third) tier of
`global_importance`. -/
def static_importance10 : List (String × ℚ) :=
  [("Customer_Age", 15/100), ("Total_Trans_Amt", 12/100),
   ("Total_Revolving_Bal", 10/100), ("Avg_Utilization_Ratio", 9/100),
   ("Total_Trans_Ct", 8/100), ("Months_on_book", 7/100),
   ("Total_Relationship_Count", 6/100), ("Income_Category", 5/100),
   ("Education_Level", 4/100), ("Card_Category", 3/100)]

/-- The 5-entry constant list returned by the outer exception handler of
`global_importance`. -/
def fallback_importance5 : List (String × ℚ) :=
  [("Customer_Age", 15/100), ("Total_Trans_Amt", 12/100),
   ("Total_Revolving_Bal", 10/100), ("Avg_Utilization_Ratio", 9/100),
   ("Total_Trans_Ct", 8/100)]

/-- The body of the outer try of `global_importance`: the three-tier
waterfall.  An `.error` is an exception escaping to the outer handler; the
inner handler absorbs only the ImportError of `import shap` (embedded as
`shap_available = false`) and falls through to the next tier.  In the shap
tier the source reads `transformers_[0][2]` twice, first for the synthetic
sample width and again for the feature names, before and after the external
attribution computation. -/
def importance_tiers (p : ImpPipeline) : Except String (List (String × ℚ)) :=
  let tier1 : Option (Except String (List (String × ℚ))) :=
    if p.shap_available then
      if p.has_tree then
        some (match p.num_features with
          | .error e => .error e
          | .ok _ =>
            match p.shap_mean_abs with
            | .error e => .error e
            | .ok vals =>
              match p.num_features with
              | .error e => .error e
              | .ok names => .ok (sortDescTake20 (names.zip vals)))
      else none
    else none
  match tier1 with
  | some r => r
  | none =>
    match p.feature_importances with
    | some imps =>
      match p.num_features with
      | .error e => .error e
      | .ok names => .ok (sortDescTake20 (names.zip imps))
    | none => .ok static_importance10

/-- `global_importance` from `utils.py`: the tier waterfall, with any
escaping exception silently recovered into the 5-entry constant list. -/
def global_importance (p : ImpPipeline) : List (String × ℚ) :=
  match importance_tiers p with
  | .ok l => l
  | .error _ => fallback_importance5

/-! ## Theorems: C3, C4, C9 -/

/-- A capability view under which no tier applies: shap not importable, no
tree estimator, no native importances. -/
def pImpStatic : ImpPipeline := ⟨false, false, .error "unused", .error "unused", none⟩

/-- A capability view under which the shap tier is entered and the
feature-name introspection raises. -/
def pImpErr : ImpPipeline := ⟨true, true, .ok [1/2], .error "KeyError: preprocess", none⟩

/-- Claim C3: `global_importance` never raises (it is a total function).
When neither the explainability tier (shap importable and a tree estimator)
nor the native-importance tier applies, it returns exactly the 10-entry
static list, in its fixed order; the outer exception handler's list is
exactly the first 5 entries of that list (a strict prefix); and whenever an
exception escapes any tier — in particular when the feature-name
introspection raises inside the shap tier — the result is that 5-entry
list. -/
theorem global_importance_spec (p : ImpPipeline) :
    (¬ (p.shap_available = true ∧ p.has_tree = true) →
      p.feature_importances = none →
      global_importance p = static_importance10) ∧
    (static_importance10.length = 10 ∧
     fallback_importance5 = static_importance10.take 5 ∧
     fallback_importance5.length = 5) ∧
    (∀ e, importance_tiers p = .error e →
      global_importance p = fallback_importance5) ∧
    (∀ e, p.shap_available = true → p.has_tree = true →
      p.num_features = .error e →
      global_importance p = fallback_importance5) := by
  refine ⟨?_, ⟨rfl, rfl, rfl⟩, ?_, ?_⟩
  · intro hnt hfi
    cases hs : p.shap_available with
    | false => simp [global_importance, importance_tiers, hs, hfi]
    | true =>
      cases ht : p.has_tree with
      | false => simp [global_importance, importance_tiers, hs, ht, hfi]
      | true => exact absurd ⟨hs, ht⟩ hnt
  · intro e he
    simp [global_importance, he]
  · intro e hs ht hnf
    simp [global_importance, importance_tiers, hs, ht, hnf]

/-- Witness for C3: the no-capability view yields the 10-entry static list
and the raising view yields the 5-entry prefix. -/
theorem global_importance_spec_witness :
    global_importance pImpStatic = static_importance10 ∧
    global_importance pImpErr = fallback_importance5 := by
  constructor
  · exact (global_importance_spec pImpStatic).1 (by decide) rfl
  · exact (global_importance_spec pImpErr).2.2.2 "KeyError: preprocess" rfl rfl rfl

/-- Claim C9: for every mode outside regression and classification,
`score_csv` fails — no output text is produced on any input — and whenever
the input parses, the failure is the ScoringFailed wrap carrying exactly
`CSV scoring failed: Unknown mode: <mode>` (not the `Unknown task:` error of
`predict_with_timing`). -/
theorem score_csv_unknown_mode_spec (read_csv : String → Except String DF)
    (to_csv : DF → String) (content : String) (mode : String)
    (p : BatchPipeline)
    (h1 : mode ≠ "regression") (h2 : mode ≠ "classification") :
    (∃ e, score_csv read_csv to_csv content mode p =
      .error ("CSV scoring failed: " ++ e)) ∧
    (∀ df, read_csv content = .ok df →
      score_csv read_csv to_csv content mode p =
        .error ("CSV scoring failed: " ++ ("Unknown mode: " ++ mode))) := by
  constructor
  · rcases hr : read_csv content with e | df
    · exact ⟨e, by simp [score_csv, hr]⟩
    · exact ⟨"Unknown mode: " ++ mode, by simp [score_csv, hr, score_table, h1, h2]⟩
  · intro df hdf
    simp [score_csv, hdf, score_table, h1, h2]

/-- Witness for C9: the unknown mode "bogus" on a parsed empty frame yields
exactly the wrapped unknown-mode message. -/
theorem score_csv_unknown_mode_spec_witness :
    score_csv (fun _ => .ok ⟨0, []⟩) (fun _ => "out") "raw-bytes" "bogus"
      ⟨fun _ => .ok [], none, []⟩ =
      .error "CSV scoring failed: Unknown mode: bogus" := by
  exact (score_csv_unknown_mode_spec (fun _ => .ok ⟨0, []⟩) (fun _ => "out")
    "raw-bytes" "bogus" ⟨fun _ => .ok [], none, []⟩ (by decide) (by decide)).2
    ⟨0, []⟩ rfl

theorem DF.setColVals_fresh (df : DF) (name : String) (vals : List Cell)
    (hlen : vals.length = df.nrows) (hfresh : name ∉ df.cols.map Prod.fst) :
    df.setColVals name vals = .ok ⟨df.nrows, df.cols ++ [(name, vals)]⟩ := by
  have hany : (df.cols.any (fun c => c.1 = name)) = false := by
    simp only [List.any_eq_false, decide_eq_false_iff_not]
    intro c hc h
    exact hfresh ((of_decide_eq_true h) ▸ List.mem_map_of_mem Prod.fst hc)
  simp [DF.setColVals, hlen, hany]

theorem DF.setColScalar_fresh (df : DF) (name : String) (v : Cell)
    (hfresh : name ∉ df.cols.map Prod.fst) :
    df.setColScalar name v =
      ⟨df.nrows, df.cols ++ [(name, List.replicate df.nrows v)]⟩ := by
  have hany : (df.cols.any (fun c => c.1 = name)) = false := by
    simp only [List.any_eq_false, decide_eq_false_iff_not]
    intro c hc h
    exact hfresh ((of_decide_eq_true h) ▸ List.mem_map_of_mem Prod.fst hc)
  simp [DF.setColScalar, hany]

theorem setProbaColsFrom_fresh (nrows : Nat) (m : List (List ℚ))
    (hm : m.length = nrows) :
    ∀ (classes : List String) (cols : List (String × List Cell)) (i : Nat),
    (∀ cls ∈ classes, ("proba_" ++ cls) ∉ cols.map Prod.fst) →
    ((classes.map (fun cls => "proba_" ++ cls)).Nodup) →
    setProbaColsFrom ⟨nrows, cols⟩ classes m i =
      .ok ⟨nrows, cols ++ (classes.enumFrom i).map
        (fun ic => ("proba_" ++ ic.2, probaCol m ic.1))⟩ := by
  intro classes
  induction classes with
  | nil => intro cols i _ _; simp [setProbaColsFrom]
  | cons cls rest ih =>
    intro cols i hfresh hnodup
    have hset := DF.setColVals_fresh ⟨nrows, cols⟩ ("proba_" ++ cls)
      (probaCol m i) (by simp [probaCol, hm]) (hfresh cls (by simp))
    rw [List.map_cons] at hnodup
    have hnd2 : (rest.map (fun c => "proba_" ++ c)).Nodup :=
      (List.nodup_cons.mp hnodup).2
    have hhd : ("proba_" ++ cls) ∉ rest.map (fun c => "proba_" ++ c) :=
      (List.nodup_cons.mp hnodup).1
    have hfresh2 : ∀ c ∈ rest,
        ("proba_" ++ c) ∉ (cols ++ [("proba_" ++ cls, probaCol m i)]).map Prod.fst := by
      intro c hc
      simp only [List.map_append, List.mem_append, List.map_cons, List.map_nil,
        List.mem_cons, List.not_mem_nil]
      rintro (hin | hin)
      · exact hfresh c (List.mem_cons_of_mem cls hc) hin
      · rcases hin with heq | hfalse
        · exact hhd (heq ▸ List.mem_map_of_mem (fun c => "proba_" ++ c) hc)
        · exact hfalse
    have hrest := ih (cols ++ [("proba_" ++ cls, probaCol m i)]) (i + 1) hfresh2 hnd2
    simp only [setProbaColsFrom, hset, hrest, List.enumFrom, List.map_cons]
    rw [List.append_assoc]
    rfl

/-- A one-row frame that already contains a column named pred_credit_limit. -/
def dfClash : DF := ⟨1, [("pred_credit_limit", [Cell.num (.fin 1)])]⟩

/-- A batch pipeline predicting the constant 7 for the single row. -/
def pBatch7 : BatchPipeline := ⟨fun _ => .ok [Cell.num (.fin 7)], none, []⟩

/-- Counterexample to claim C4 as stated: its quantification over every
parseable input table fails on a table that already has a column named
pred_credit_limit.  Column assignment on a frame overwrites an existing
column in place, so on this one-column input the regression scoring output
still has exactly one column — nothing was appended after the last original
column — and the original column's values were replaced by the
predictions. -/
theorem score_table_clash_counterexample :
    score_table pBatch7 "regression" dfClash =
      .ok ⟨1, [("pred_credit_limit", [Cell.num (.fin 7)])]⟩ ∧
    dfClash.cols = [("pred_credit_limit", [Cell.num (.fin 1)])] := by
  exact ⟨rfl, rfl⟩

/-- Claim C4 (amended): provided no appended column name already occurs
among the input's columns (when one does, that column is overwritten in
place instead, as the counterexample shows), `score_table` preserves the
input row count, the rows and order of every original column, and appends
the new columns after the last original column: for mode regression exactly
the one column pred_credit_limit holding the predictions; for mode
classification with `predict_proba` absent, pred_tier plus the three
constant columns proba_Low 0.33, proba_Medium 0.33, proba_High 0.34; with
`predict_proba` present, pred_tier plus one `proba_` column per class in
the pipeline's own class ordering, holding that class's per-row
probabilities. -/
theorem score_table_spec (p : BatchPipeline) (df : DF) :
    (∀ preds, p.predict df = .ok preds → preds.length = df.nrows →
      "pred_credit_limit" ∉ df.cols.map Prod.fst →
      score_table p "regression" df =
        .ok ⟨df.nrows, df.cols ++ [("pred_credit_limit", preds)]⟩) ∧
    (∀ preds, p.predict df = .ok preds → preds.length = df.nrows →
      p.predict_proba = none →
      "pred_tier" ∉ df.cols.map Prod.fst →
      "proba_Low" ∉ df.cols.map Prod.fst →
      "proba_Medium" ∉ df.cols.map Prod.fst →
      "proba_High" ∉ df.cols.map Prod.fst →
      score_table p "classification" df =
        .ok ⟨df.nrows, df.cols ++
          [("pred_tier", preds),
           ("proba_Low", List.replicate df.nrows (Cell.num (.fin (33/100)))),
           ("proba_Medium", List.replicate df.nrows (Cell.num (.fin (33/100)))),
           ("proba_High", List.replicate df.nrows (Cell.num (.fin (34/100))))]⟩) ∧
    (∀ preds f m, p.predict df = .ok preds → preds.length = df.nrows →
      p.predict_proba = some f → f df = .ok m → m.length = df.nrows →
      "pred_tier" ∉ df.cols.map Prod.fst →
      (∀ cls ∈ p.classes_, ("proba_" ++ cls) ∉ df.cols.map Prod.fst ∧
        ("proba_" ++ cls) ≠ "pred_tier") →
      ((p.classes_.map (fun cls => "proba_" ++ cls)).Nodup) →
      score_table p "classification" df =
        .ok ⟨df.nrows, df.cols ++ ("pred_tier", preds) ::
          (p.classes_.enumFrom 0).map
            (fun ic => ("proba_" ++ ic.2, probaCol m ic.1))⟩) := by
  refine ⟨?_, ?_, ?_⟩
  · intro preds hp hlen hfr
    have hset := DF.setColVals_fresh df "pred_credit_limit" preds hlen hfr
    simp [score_table, hp, hset]
  · intro preds hp hlen hpp h1 h2 h3 h4
    have hset := DF.setColVals_fresh df "pred_tier" preds hlen h1
    have m2 : "proba_Low" ∉ (df.cols ++ [("pred_tier", preds)]).map Prod.fst := by
      simp only [List.map_append, List.mem_append, List.map_cons, List.map_nil,
        List.mem_cons, List.not_mem_nil, or_false]
      rintro (hin | hin)
      · exact h2 hin
      · exact absurd hin (by decide)
    have s2 := DF.setColScalar_fresh ⟨df.nrows, df.cols ++ [("pred_tier", preds)]⟩
      "proba_Low" (Cell.num (.fin (33/100))) m2
    have m3 : "proba_Medium" ∉ (df.cols ++ [("pred_tier", preds),
        ("proba_Low", List.replicate df.nrows (Cell.num (.fin (33/100))))]).map
        Prod.fst := by
      simp only [List.map_append, List.mem_append, List.map_cons, List.map_nil,
        List.mem_cons, List.not_mem_nil, or_false]
      rintro (hin | hin | hin)
      · exact h3 hin
      · exact absurd hin (by decide)
      · exact absurd hin (by decide)
    have s3 := DF.setColScalar_fresh ⟨df.nrows, df.cols ++ [("pred_tier", preds),
        ("proba_Low", List.replicate df.nrows (Cell.num (.fin (33/100))))]⟩
      "proba_Medium" (Cell.num (.fin (33/100))) m3
    have m4 : "proba_High" ∉ (df.cols ++ [("pred_tier", preds),
        ("proba_Low", List.replicate df.nrows (Cell.num (.fin (33/100)))),
        ("proba_Medium", List.replicate df.nrows (Cell.num (.fin (33/100))))]).map
        Prod.fst := by
      simp only [List.map_append, List.mem_append, List.map_cons, List.map_nil,
        List.mem_cons, List.not_mem_nil, or_false]
      rintro (hin | hin | hin | hin)
      · exact h4 hin
      · exact absurd hin (by decide)
      · exact absurd hin (by decide)
      · exact absurd hin (by decide)
    have s4 := DF.setColScalar_fresh ⟨df.nrows, df.cols ++ [("pred_tier", preds),
        ("proba_Low", List.replicate df.nrows (Cell.num (.fin (33/100)))),
        ("proba_Medium", List.replicate df.nrows (Cell.num (.fin (33/100))))]⟩
      "proba_High" (Cell.num (.fin (34/100))) m4
    rw [show (df.cols ++ [("pred_tier", preds)]) ++
        [("proba_Low", List.replicate df.nrows (Cell.num (.fin (33/100))))] =
        df.cols ++ [("pred_tier", preds),
          ("proba_Low", List.replicate df.nrows (Cell.num (.fin (33/100))))] by
      simp] at s2
    rw [show (df.cols ++ [("pred_tier", preds),
        ("proba_Low", List.replicate df.nrows (Cell.num (.fin (33/100))))]) ++
        [("proba_Medium", List.replicate df.nrows (Cell.num (.fin (33/100))))] =
        df.cols ++ [("pred_tier", preds),
          ("proba_Low", List.replicate df.nrows (Cell.num (.fin (33/100)))),
          ("proba_Medium", List.replicate df.nrows (Cell.num (.fin (33/100))))] by
      simp] at s3
    simp [score_table, hp, hset, hpp, s2, s3, s4, List.append_assoc]
  · intro preds f m hp hlen hpp hfm hm h1 hcls hnd
    have hset := DF.setColVals_fresh df "pred_tier" preds hlen h1
    have hfresh : ∀ cls ∈ p.classes_,
        ("proba_" ++ cls) ∉ (df.cols ++ [("pred_tier", preds)]).map Prod.fst := by
      intro cls hc
      simp only [List.map_append, List.mem_append, List.map_cons, List.map_nil,
        List.mem_cons, List.not_mem_nil, or_false]
      rintro (hin | hin)
      · exact (hcls cls hc).1 hin
      · exact (hcls cls hc).2 hin
    have hrun := setProbaColsFrom_fresh df.nrows m hm p.classes_
      (df.cols ++ [("pred_tier", preds)]) 0 hfresh hnd
    simp [score_table, hp, hset, hpp, hfm, hrun, List.append_assoc]

/-- A two-row input frame with one original column. -/
def dfIn : DF := ⟨2, [("Customer_Age", [Cell.num (.fin 45), Cell.num (.fin 50)])]⟩

/-- A regression batch pipeline predicting 7 and 8 for the two rows. -/
def pBatchReg2 : BatchPipeline :=
  ⟨fun _ => .ok [Cell.num (.fin 7), Cell.num (.fin 8)], none, []⟩

/-- A classification batch pipeline with `predict_proba` and the class order
Low, High. -/
def pBatchClfP : BatchPipeline :=
  ⟨fun _ => .ok [Cell.str "Low", Cell.str "High"],
   some (fun _ => .ok [[3/5, 2/5], [1/5, 4/5]]), ["Low", "High"]⟩

/-- A classification batch pipeline without `predict_proba`. -/
def pBatchClfNoP : BatchPipeline :=
  ⟨fun _ => .ok [Cell.str "Low", Cell.str "High"], none, []⟩

/-- Witness for C4 (amended): on a collision-free two-row frame, regression
scoring appends exactly pred_credit_limit; proba-less classification appends
pred_tier and the three constant columns; proba-capable classification
appends pred_tier and one proba_ column per class in the pipeline's class
order, all after the untouched original column. -/
theorem score_table_spec_witness :
    score_table pBatchReg2 "regression" dfIn =
      .ok ⟨2, [("Customer_Age", [Cell.num (.fin 45), Cell.num (.fin 50)]),
               ("pred_credit_limit", [Cell.num (.fin 7), Cell.num (.fin 8)])]⟩ ∧
    score_table pBatchClfNoP "classification" dfIn =
      .ok ⟨2, [("Customer_Age", [Cell.num (.fin 45), Cell.num (.fin 50)]),
               ("pred_tier", [Cell.str "Low", Cell.str "High"]),
               ("proba_Low", [Cell.num (.fin (33/100)), Cell.num (.fin (33/100))]),
               ("proba_Medium", [Cell.num (.fin (33/100)), Cell.num (.fin (33/100))]),
               ("proba_High", [Cell.num (.fin (34/100)), Cell.num (.fin (34/100))])]⟩ ∧
    score_table pBatchClfP "classification" dfIn =
      .ok ⟨2, [("Customer_Age", [Cell.num (.fin 45), Cell.num (.fin 50)]),
               ("pred_tier", [Cell.str "Low", Cell.str "High"]),
               ("proba_Low", [Cell.num (.fin (3/5)), Cell.num (.fin (1/5))]),
               ("proba_High", [Cell.num (.fin (2/5)), Cell.num (.fin (4/5))])]⟩ := by
  refine ⟨?_, ?_, ?_⟩
  · exact (score_table_spec pBatchReg2 dfIn).1 _ rfl rfl (by decide)
  · exact (score_table_spec pBatchClfNoP dfIn).2.1 _ rfl rfl rfl
      (by decide) (by decide) (by decide) (by decide)
  · exact (score_table_spec pBatchClfP dfIn).2.2 _ _ _ rfl rfl rfl rfl rfl
      (by decide) (by decide) (by decide)
